import Mathlib

/-!
Verification of the directoutput-libusb driver core against its specification.

The development shallowly embeds the Rust sources:
  * `src/devices/saitek_fip_lcd.rs` — protocol codec (`ControlPacket`,
    `Request`), the per-device worker thread, and the capability operations;
  * `src/devices/mod.rs` — the device registry and the hotplug handler;
  * `src/libfip.rs` — the numeric device-handle embedding of the export shim.

Machine integers are modelled as `Nat` with explicit `% 2 ^ 32` (or `% 256`,
`% 65536`) exactly where the source performs a narrowing cast; fields typed
`u32`/`u8` in Rust are `Nat`s constrained by well-formedness hypotheses where
a theorem needs the bound.  Fallible Rust code returns `Except`/`Option`;
a Rust `panic!`/`expect` failure is a distinguished outcome constructor.
Concurrency (mutex poisoning, thread interleaving) is not modelled: each
function is embedded as a pure state transformer on the data the lock guards.
-/

namespace DirectOutputLibusb

/-- Transport-level errors of the USB library (`rusb::Error`) as the driver
distinguishes them.  `Other` is the value the driver itself produces on a
short transfer; the remaining constructors stand for the library-originated
errors (timeout, device gone, any other I/O failure). -/
inductive RusbError where
  | Timeout
  | NoDevice
  | Io
  | Other
  deriving DecidableEq, Repr

/-- The request opcodes, from the `Request` enum in saitek_fip_lcd.rs. -/
inductive Request where
  | FolderRemoved
  | SaveFile
  | SetImageFile
  | SetImage
  | DeleteFile
  | StartServer
  | SomeFactoryModeRequest
  | ClearImage
  | SetLed
  deriving DecidableEq, Repr

/-- Numeric value of each opcode, from the `repr(u32)` discriminants of the
`Request` enum in saitek_fip_lcd.rs. -/
def Request.toU32 : Request → Nat
  | .FolderRemoved => 0x02
  | .SaveFile => 0x03
  | .SetImageFile => 0x04
  | .SetImage => 0x06
  | .DeleteFile => 0x07
  | .StartServer => 0x09
  | .SomeFactoryModeRequest => 0x0a
  | .ClearImage => 0x13
  | .SetLed => 0x18

/-- The wire frame, from `struct ControlPacket` in saitek_fip_lcd.rs: eleven
big-endian 32-bit fields in declaration order (`repr(C)`, `Unaligned`, no
padding).  Each field holds the numeric value of the corresponding `U32`;
well-formed packets have every field below `2 ^ 32` (`ControlPacket.wf`). -/
structure ControlPacket where
  server_id : Nat
  page : Nat
  data_size : Nat
  header_error : Nat
  header_info : Nat
  request : Nat
  param_1 : Nat
  param_2 : Nat
  param_3 : Nat
  request_error : Nat
  request_info : Nat
  deriving DecidableEq, Repr

/-- Every field fits in an unsigned 32-bit integer, as the Rust `U32` field
types guarantee. -/
def ControlPacket.wf (p : ControlPacket) : Prop :=
  p.server_id < 2 ^ 32 ∧ p.page < 2 ^ 32 ∧ p.data_size < 2 ^ 32 ∧
  p.header_error < 2 ^ 32 ∧ p.header_info < 2 ^ 32 ∧ p.request < 2 ^ 32 ∧
  p.param_1 < 2 ^ 32 ∧ p.param_2 < 2 ^ 32 ∧ p.param_3 < 2 ^ 32 ∧
  p.request_error < 2 ^ 32 ∧ p.request_info < 2 ^ 32

instance (p : ControlPacket) : Decidable p.wf := by
  unfold ControlPacket.wf; infer_instance

/-- `ControlPacket::has_error`: true iff the header error field or the
request error field is nonzero.  The info fields are not consulted. -/
def ControlPacket.has_error (p : ControlPacket) : Bool :=
  decide (0 < p.header_error) || decide (0 < p.request_error)

/-- `ControlPacket::new`: the zeroed template packet with only the request
code filled in. -/
def ControlPacket.new (request : Request) : ControlPacket :=
  { server_id := 0
    page := 0
    data_size := 0
    header_error := 0
    header_info := 0
    request := request.toU32
    param_1 := 0
    param_2 := 0
    param_3 := 0
    request_error := 0
    request_info := 0 }

/-- The four big-endian bytes of a 32-bit value, most significant first, as
`zerocopy::byteorder::U32<BigEndian>` lays them out. -/
def be32 (n : Nat) : List Nat :=
  [n / 2 ^ 24 % 256, n / 2 ^ 16 % 256, n / 2 ^ 8 % 256, n % 256]

/-- Recomposition of a 32-bit value from its four big-endian bytes. -/
def fromBe32 (a b c d : Nat) : Nat :=
  a * 2 ^ 24 + b * 2 ^ 16 + c * 2 ^ 8 + d

/-- `AsBytes` encoding of a packet: the 44-byte wire image, fields in
declaration order, each as four big-endian bytes. -/
def ControlPacket.asBytes (p : ControlPacket) : List Nat :=
  be32 p.server_id ++ be32 p.page ++ be32 p.data_size ++
  be32 p.header_error ++ be32 p.header_info ++ be32 p.request ++
  be32 p.param_1 ++ be32 p.param_2 ++ be32 p.param_3 ++
  be32 p.request_error ++ be32 p.request_info

/-- `FromBytes` decoding (`ControlPacket::read_from` on a 44-byte buffer):
succeeds exactly on byte strings of length 44, reading the eleven fields in
declaration order, big-endian. -/
def ControlPacket.fromBytes : List Nat → Option ControlPacket
  | x0 :: x1 :: x2 :: x3 :: x4 :: x5 :: x6 :: x7 :: x8 :: x9 :: x10 :: x11 ::
    x12 :: x13 :: x14 :: x15 :: x16 :: x17 :: x18 :: x19 :: x20 :: x21 :: x22 :: x23 ::
    x24 :: x25 :: x26 :: x27 :: x28 :: x29 :: x30 :: x31 :: x32 :: x33 :: x34 :: x35 ::
    x36 :: x37 :: x38 :: x39 :: x40 :: x41 :: x42 :: x43 :: [] =>
    some
      { server_id := fromBe32 x0 x1 x2 x3
        page := fromBe32 x4 x5 x6 x7
        data_size := fromBe32 x8 x9 x10 x11
        header_error := fromBe32 x12 x13 x14 x15
        header_info := fromBe32 x16 x17 x18 x19
        request := fromBe32 x20 x21 x22 x23
        param_1 := fromBe32 x24 x25 x26 x27
        param_2 := fromBe32 x28 x29 x30 x31
        param_3 := fromBe32 x32 x33 x34 x35
        request_error := fromBe32 x36 x37 x38 x39
        request_info := fromBe32 x40 x41 x42 x43 }
  | _ => none

theorem fromBe32_be32 {n : Nat} (h : n < 2 ^ 32) :
    fromBe32 (n / 2 ^ 24 % 256) (n / 2 ^ 16 % 256) (n / 2 ^ 8 % 256) (n % 256) = n := by
  unfold fromBe32
  omega

/-- C4: encoding a well-formed ControlPacket to its fixed 44-byte, 11-field
big-endian wire form and decoding it back reproduces identical field values. -/
theorem controlPacket_roundtrip (p : ControlPacket) (h : p.wf) :
    ControlPacket.fromBytes p.asBytes = some p := by
  obtain ⟨h1, h2, h3, h4, h5, h6, h7, h8, h9, h10, h11⟩ := h
  simp only [ControlPacket.asBytes, be32, List.cons_append, List.nil_append,
    ControlPacket.fromBytes, fromBe32_be32 h1, fromBe32_be32 h2, fromBe32_be32 h3,
    fromBe32_be32 h4, fromBe32_be32 h5, fromBe32_be32 h6, fromBe32_be32 h7,
    fromBe32_be32 h8, fromBe32_be32 h9, fromBe32_be32 h10, fromBe32_be32 h11]

/-- `set_led` request construction (saitek_fip_lcd.rs): a fresh `SetLed`
template with `param_1` = page, `param_2` = LED index and `param_3` the
boolean value as 0 or 1.  The page and index arguments are u8 values. -/
def set_led_packet (page index : Nat) (value : Bool) : ControlPacket :=
  { ControlPacket.new Request.SetLed with
      param_1 := page
      param_2 := index
      param_3 := if value then 1 else 0 }

/-- Witness for C4 at the specified concrete packet: opcode set-led (0x18),
param1 = 2, param2 = 5, param3 = 1 round-trips exactly. -/
theorem controlPacket_roundtrip_witness :
    ControlPacket.fromBytes (set_led_packet 2 5 true).asBytes =
      some (set_led_packet 2 5 true) :=
  controlPacket_roundtrip (set_led_packet 2 5 true) (by decide)

/-- A response frame whose header info field (the second status word of the
header half) is nonzero while both error fields are zero. -/
def infoOnlyPacket : ControlPacket :=
  { ControlPacket.new Request.SomeFactoryModeRequest with header_info := 1 }

/-- C3 counterexample: `has_error()` is false on a packet whose header info
field is 1, although not every one of the four status fields is zero, so
"has_error() = false iff all four status fields are zero" fails. -/
theorem has_error_ignores_info_cex :
    ¬ (ControlPacket.has_error infoOnlyPacket = false ↔
        (infoOnlyPacket.header_error = 0 ∧ infoOnlyPacket.header_info = 0 ∧
         infoOnlyPacket.request_error = 0 ∧ infoOnlyPacket.request_info = 0)) := by
  decide

/-- C3 amended: `has_error()` returns false iff the header error field and
the request error field are both zero; the two info fields are never
consulted. -/
theorem has_error_iff (p : ControlPacket) :
    ControlPacket.has_error p = false ↔
      (p.header_error = 0 ∧ p.request_error = 0) := by
  simp only [ControlPacket.has_error, Bool.or_eq_false_iff, decide_eq_false_iff_not,
    Nat.not_lt, Nat.le_zero]

/-- `set_image_data` request construction: a fresh `SetImage` template with
`page` set and `data_size` set to the payload length (`set_data_size`
truncates the usize length to u32, hence the explicit modulus). -/
def set_image_packet (page dataLen : Nat) : ControlPacket :=
  { ControlPacket.new Request.SetImage with
      page := page
      data_size := dataLen % 2 ^ 32 }

/-- `clear_image` request construction: a fresh `ClearImage` template with
only `page` set. -/
def clear_image_packet (page : Nat) : ControlPacket :=
  { ControlPacket.new Request.ClearImage with page := page }

/-- `save_file` request construction: a fresh `SaveFile` template with
`param_1` = page, `param_3` = file id and `data_size` the buffered payload
length truncated to u32. -/
def save_file_packet (page file dataLen : Nat) : ControlPacket :=
  { ControlPacket.new Request.SaveFile with
      param_1 := page
      param_3 := file
      data_size := dataLen % 2 ^ 32 }

/-- `display_file` request construction.  The source builds the template
with `Request::SaveFile` (saitek_fip_lcd.rs line 472), not with
`Request::SetImageFile`, then sets `param_1` = page, `param_2` = index and
`param_3` = file id. -/
def display_file_packet (page index file : Nat) : ControlPacket :=
  { ControlPacket.new Request.SaveFile with
      param_1 := page
      param_2 := index
      param_3 := file }

/-- `delete_file` request construction.  The source builds the template
with `Request::SaveFile` (saitek_fip_lcd.rs line 484), not with
`Request::DeleteFile`, then sets `param_1` = page and `param_3` = file id. -/
def delete_file_packet (page file : Nat) : ControlPacket :=
  { ControlPacket.new Request.SaveFile with
      param_1 := page
      param_3 := file }

/-- C2: evaluation of every capability request constructor at a concrete
input.  `save_file`, `set_led`, `clear_image` and `set_image` carry the
opcodes the table assigns them, but `delete_file` and `display_file` both
carry the save-file opcode 0x03 — not 0x07 and 0x04 — although the code's
own `Request` enum declares `DeleteFile = 0x07` and `SetImageFile = 0x04`
for exactly these operations (both variants are never used). -/
theorem capability_opcodes_eval :
    (save_file_packet 0 1 16).request = 0x03 ∧
    (set_led_packet 0 1 true).request = 0x18 ∧
    (clear_image_packet 0).request = 0x13 ∧
    (set_image_packet 0 0x38400).request = 0x06 ∧
    (delete_file_packet 0 1).request = 0x03 ∧
    (delete_file_packet 0 1).request ≠ 0x07 ∧
    (display_file_packet 0 0 1).request = 0x03 ∧
    (display_file_packet 0 0 1).request ≠ 0x04 ∧
    Request.toU32 Request.DeleteFile = 0x07 ∧
    Request.toU32 Request.SetImageFile = 0x04 := by
  decide

/-- The initialized per-device transport state, from `UsbSaitekFipLcdInt`:
the claimed endpoint pair, the resolved serial number and the hardcoded
device-type UUID (128-bit value).  The session's `int` mutex holds
`Option` of this: `none` models Rust `None` (not initialized, or worker
abandoned/crashed before the `replace`). -/
structure UsbSaitekFipLcdInt where
  read_endpoint_address : Nat
  write_endpoint_address : Nat
  serial_number : String
  device_type_uuid : Nat
  deriving DecidableEq, Repr

/-- A concrete initialized transport state used by the witnesses. -/
def sampleInt : UsbSaitekFipLcdInt :=
  { read_endpoint_address := 0x81
    write_endpoint_address := 0x01
    serial_number := "MZ012345"
    device_type_uuid := 0x3E083CD86A374A5880A83D6A2C07513E }

/-- `ready`: the session is ready iff the `int` mutex holds `Some`
(`self.int.lock().is_ok_and(|int| int.is_some())`; the poisoned-lock case is
a concurrency artifact not modelled here). -/
def ready (st : Option UsbSaitekFipLcdInt) : Bool :=
  st.isSome

/-- The fixed factory-mode probe request the worker sends:
`ControlPacket::new(Request::SomeFactoryModeRequest)`. -/
def probePacket : ControlPacket :=
  ControlPacket.new Request.SomeFactoryModeRequest

/-- `UsbSaitekFipLcd::_thread_target`, the per-device worker: upgrade the
weak device reference (give up if gone), build the transport state
(`UsbSaitekFipLcdInt::new`; its `expect`s panic on failure, modelled as
`none`), transceive the factory-mode probe, and
  * panic (`expect`) if the exchange fails — `int` never set;
  * return without committing if the response has no error flags (the
    factory-mode rejection) — `int` never set;
  * otherwise `replace` the `int` mutex contents, making the session ready.
The result pairs the list of requests the worker sent with the final `int`
state. -/
def thread_target (upgradeOk : Bool) (initResult : Option UsbSaitekFipLcdInt)
    (probeResult : Except RusbError ControlPacket) :
    List ControlPacket × Option UsbSaitekFipLcdInt :=
  if upgradeOk = false then ([], none)
  else
    match initResult with
    | none => ([], none)
    | some devInt =>
      match probeResult with
      | Except.error _ => ([probePacket], none)
      | Except.ok response =>
        if response.has_error = false then ([probePacket], none)
        else ([probePacket], some devInt)

/-- C1: the worker makes the session ready only when the probe exchange
succeeds with a response carrying a nonzero error flag; whenever the probe
response is error-free the session is left not ready (the worker returns
without committing, and nothing else ever sets the state). -/
theorem worker_ready_iff_probe_error (upgradeOk : Bool)
    (initResult : Option UsbSaitekFipLcdInt)
    (probeResult : Except RusbError ControlPacket) :
    (ready (thread_target upgradeOk initResult probeResult).2 = true →
      ∃ response, probeResult = Except.ok response ∧ response.has_error = true) ∧
    (∀ response, probeResult = Except.ok response → response.has_error = false →
      ready (thread_target upgradeOk initResult probeResult).2 = false) := by
  cases upgradeOk <;> cases initResult <;>
    rcases probeResult with e | response <;>
    simp [thread_target, ready] <;>
    cases hr : response.has_error <;> simp [hr]

/-- Witness for C1: on an error-free probe response the session stays not
ready. -/
theorem worker_ready_iff_probe_error_witness :
    ready (thread_target true (some sampleInt) (Except.ok probePacket)).2 = false :=
  (worker_ready_iff_probe_error true (some sampleInt) (Except.ok probePacket)).2
    probePacket rfl (by decide)

/-- A probe response carrying a nonzero request error flag, as a device not
in factory mode answers. -/
def probeErrorResponse : ControlPacket :=
  { ControlPacket.new Request.SomeFactoryModeRequest with request_error := 1 }

/-- C7 counterexample: on a successful handshake the worker commits the
session (ready becomes true) but its complete request trace is the probe
alone — it contains no clear-image (0x13) request at all, so no best-effort
clear-page-0 request follows the transition to Ready. -/
theorem worker_no_clear_after_ready_cex :
    ready (thread_target true (some sampleInt) (Except.ok probeErrorResponse)).2 = true ∧
    (thread_target true (some sampleInt) (Except.ok probeErrorResponse)).1 = [probePacket] ∧
    ((thread_target true (some sampleInt) (Except.ok probeErrorResponse)).1.filter
      (fun q => q.request == 0x13)) = [] := by
  decide

/-- C7 amended: the worker never issues any request other than the
factory-mode probe (opcode 0x0a); in particular it issues no clear-page
request after the session becomes ready — it simply terminates. -/
theorem worker_sends_only_probe (upgradeOk : Bool)
    (initResult : Option UsbSaitekFipLcdInt)
    (probeResult : Except RusbError ControlPacket) :
    ((thread_target upgradeOk initResult probeResult).1.all
      (fun q => q.request == 0x0a)) = true := by
  cases upgradeOk <;> cases initResult <;>
    rcases probeResult with e | response <;>
    simp [thread_target, probePacket, ControlPacket.new, Request.toU32] <;>
    cases hr : response.has_error <;>
    simp [hr, probePacket, ControlPacket.new, Request.toU32]

/-- Outcome of one capability operation as the caller observes it. -/
inductive OpOutcome where
  | ok
  | err
  | panicked
  deriving DecidableEq, Repr

/-- The shared body of every capability operation (`set_led`, `clear_image`,
`set_image_data`, `save_file`, `display_file`, `delete_file`):
`transmit` locks the `int` mutex and `expect`s it to be `Some` (panicking
otherwise), then transceives; the operation maps a transport error to
`Err(())` and otherwise returns `Ok`/`Err` according to the response's
`has_error()`.  The returned state is the `int` contents afterwards: no
branch ever writes to it. -/
def capability_run (st : Option UsbSaitekFipLcdInt)
    (transportResult : Except RusbError ControlPacket) :
    OpOutcome × Option UsbSaitekFipLcdInt :=
  match st with
  | none => (OpOutcome.panicked, none)
  | some devInt =>
    match transportResult with
    | Except.error _ => (OpOutcome.err, some devInt)
    | Except.ok response =>
      (if response.has_error = true then OpOutcome.err else OpOutcome.ok, some devInt)

/-- C5 counterexample: a device-removal transport error during a capability
operation on a ready session leaves the session state untouched and still
ready — no transition to a terminal non-ready Invalid state happens; the
error only surfaces as the operation's failure. -/
theorem transport_error_keeps_ready_cex :
    (capability_run (some sampleInt) (Except.error RusbError.NoDevice)).2 = some sampleInt ∧
    ready (capability_run (some sampleInt) (Except.error RusbError.NoDevice)).2 = true ∧
    (capability_run (some sampleInt) (Except.error RusbError.NoDevice)).1 = OpOutcome.err := by
  decide

/-- C5 amended: a capability operation never changes the session state; a
transport error (device removal included) surfaces as the operation's
failure while the session stays as it was (still ready), and an operation
on a non-ready session panics in `transmit` rather than returning failure. -/
theorem capability_state_unchanged (st : Option UsbSaitekFipLcdInt)
    (transportResult : Except RusbError ControlPacket) :
    (capability_run st transportResult).2 = st ∧
    (st = none → (capability_run st transportResult).1 = OpOutcome.panicked) ∧
    (∀ e, transportResult = Except.error e →
      ready st = true → (capability_run st transportResult).1 = OpOutcome.err) := by
  cases st <;> rcases transportResult with e | response <;>
    simp [capability_run, ready]

/-- Witness for C5 amended: a timeout during an operation on a ready
session yields the error outcome (and, by the theorem, an unchanged
state). -/
theorem capability_state_unchanged_witness :
    (capability_run (some sampleInt) (Except.error RusbError.Timeout)).1 = OpOutcome.err :=
  (capability_state_unchanged (some sampleInt) (Except.error RusbError.Timeout)).2.2
    RusbError.Timeout rfl (by decide)

/-- `UsbHotplugHandler::device_left` (devices/mod.rs): upgrade the weak
registry reference (give up if the state is gone), remove the map entry
under the write lock and — only when an entry was actually removed —
upgrade the observer-list reference and call `display_left(addr)` on every
registered observer in order.  When `remove` returns `None` the handler
returns early and nobody is notified.  The registry is an association list
standing for the `BTreeMap`; notifications are recorded as
(observer index, address) pairs in delivery order. -/
def device_left (upgradeDisplays upgradeHandlers : Bool)
    (displays : List ((Nat × Nat) × Option UsbSaitekFipLcdInt))
    (numHandlers : Nat) (addr : Nat × Nat) :
    List ((Nat × Nat) × Option UsbSaitekFipLcdInt) × List (Nat × (Nat × Nat)) :=
  if upgradeDisplays = false then (displays, [])
  else if (displays.lookup addr).isSome = false then (displays, [])
  else
    let removed := displays.filter (fun kv => decide (kv.1 ≠ addr))
    if upgradeHandlers = false then (removed, [])
    else (removed, (List.range numHandlers).map (fun j => (j, addr)))

/-- The address of the worked scenario, bus 3 device 7. -/
def addr37 : Nat × Nat := (3, 7)

/-- C6 counterexample: a removal event for an address absent from the
registry notifies nobody — with one registered observer the notification
list is empty, not the claimed in-order delivery to every observer. -/
theorem device_left_absent_no_notify_cex :
    (device_left true true [] 1 addr37).2 = [] ∧
    (device_left true true [] 1 addr37).2 ≠ [(0, addr37)] := by
  decide

/-- C6 amended: when the departed address is present, the entry is removed
and every registered observer is notified with that address in
registration order; when it is absent, the registry is unchanged and no
observer is notified at all. -/
theorem device_left_spec
    (displays : List ((Nat × Nat) × Option UsbSaitekFipLcdInt))
    (numHandlers : Nat) (addr : Nat × Nat) :
    ((displays.lookup addr).isSome = true →
      (device_left true true displays numHandlers addr).1 =
        displays.filter (fun kv => decide (kv.1 ≠ addr)) ∧
      (device_left true true displays numHandlers addr).2 =
        (List.range numHandlers).map (fun j => (j, addr))) ∧
    ((displays.lookup addr).isSome = false →
      (device_left true true displays numHandlers addr).1 = displays ∧
      (device_left true true displays numHandlers addr).2 = []) := by
  unfold device_left
  cases hp : (displays.lookup addr).isSome <;> simp [hp]

/-- Witness for C6 amended: removing the one present entry notifies the
single observer once, with the departed address. -/
theorem device_left_spec_witness :
    (device_left true true [(addr37, some sampleInt)] 1 addr37).2 = [(0, addr37)] := by
  have h := (device_left_spec [(addr37, some sampleInt)] 1 addr37).1 (by decide)
  simpa using h.2

/-- `State::display_addrs` (devices/mod.rs): iterate the registry and keep
exactly the addresses whose session currently answers `ready()`. -/
def display_addrs (displays : List ((Nat × Nat) × Option UsbSaitekFipLcdInt)) :
    List (Nat × Nat) :=
  displays.filterMap (fun kv => if ready kv.2 = true then some kv.1 else none)

/-- C8: every address `display_addrs` returns belongs to a registry entry
whose session is ready; an entry whose session state is `none`
(uninitialized or abandoned) is never the source of a returned address. -/
theorem display_addrs_ready
    (displays : List ((Nat × Nat) × Option UsbSaitekFipLcdInt))
    (addr : Nat × Nat) (h : addr ∈ display_addrs displays) :
    ∃ st, (addr, st) ∈ displays ∧ ready st = true := by
  unfold display_addrs at h
  rcases List.mem_filterMap.mp h with ⟨⟨a, st⟩, hkv, hf⟩
  by_cases hr : ready st = true
  · refine ⟨st, ?_, hr⟩
    simp only [hr, if_true, Option.some.injEq] at hf
    exact hf ▸ hkv
  · simp [hr] at hf

/-- Witness for C8: in a registry holding one ready and one uninitialized
session, the address the enumeration returns is backed by a ready entry. -/
theorem display_addrs_ready_witness :
    ∃ st, (addr37, st) ∈ [(addr37, some sampleInt), ((1, 2), none)] ∧ ready st = true :=
  display_addrs_ready [(addr37, some sampleInt), ((1, 2), none)] addr37 (by decide)

/-- The HRESULT value `E_HANDLE` from libfip.rs (an i64 constant; all
constants this development uses are nonnegative, so `Nat` suffices). -/
def E_HANDLE : Nat := 0x80070006

/-- `embed_addr` (libfip.rs): the numeric DevicePtr handle of a (bus,
device) pair.  The source computes `(bus as u16) << 8 | (dev as u16)` and
widens to u64; the arguments are u8 values — the leading `% 256` encodes
that argument type — so the shift stays below 2 ^ 16 and the disjoint-byte
OR is addition. -/
def embed_addr (device_addr : Nat × Nat) : Nat :=
  (device_addr.1 % 256) * 256 + device_addr.2 % 256

/-- `extract_addr` (libfip.rs): reject a handle whose low 16 bits are zero
or whose u64 value is at least `u16::MAX`, otherwise split the truncated
u16 into its high byte (bus) and low byte (device). -/
def extract_addr (device_ptr : Nat) : Except Nat (Nat × Nat) :=
  if device_ptr % 65536 = 0 ∨ 65535 ≤ device_ptr then Except.error E_HANDLE
  else
    let casted := device_ptr % 65536
    Except.ok (casted / 256, casted % 256)

/-- C9 counterexample: the pair (0, 0) embeds to the handle 0, which
`extract_addr` rejects with `E_HANDLE` instead of returning the pair —
so the round trip does not hold for every pair of u8 values. -/
theorem addr_roundtrip_cex :
    extract_addr (embed_addr (0, 0)) = Except.error E_HANDLE ∧
    extract_addr (embed_addr (0, 0)) ≠ Except.ok ((0 : Nat), (0 : Nat)) := by
  refine ⟨rfl, fun h => ?_⟩
  rw [show extract_addr (embed_addr (0, 0)) = Except.error E_HANDLE from rfl] at h
  exact Except.noConfusion h

/-- C9 amended: the round trip `extract_addr (embed_addr a) = Ok a` holds
for every pair of u8 values except (0, 0) and (255, 255), whose handles
(0 and 0xFFFF) `extract_addr` rejects with `E_HANDLE`. -/
theorem extract_embed_addr (bus dev : Nat) (hb : bus < 256) (hd : dev < 256)
    (h0 : ¬(bus = 0 ∧ dev = 0)) (hm : ¬(bus = 255 ∧ dev = 255)) :
    extract_addr (embed_addr (bus, dev)) = Except.ok (bus, dev) := by
  have hb' : bus % 256 = bus := Nat.mod_eq_of_lt hb
  have hd' : dev % 256 = dev := Nat.mod_eq_of_lt hd
  simp only [extract_addr, embed_addr, hb', hd']
  rw [if_neg (by omega)]
  have hlt : bus * 256 + dev < 65536 := by omega
  have h1 : (bus * 256 + dev) % 65536 = bus * 256 + dev := Nat.mod_eq_of_lt hlt
  simp only [h1, Except.ok.injEq, Prod.mk.injEq]
  constructor <;> omega

/-- Witness for C9 amended: the handle of bus 3, device 7 extracts back to
(3, 7). -/
theorem extract_embed_addr_witness :
    extract_addr (embed_addr (3, 7)) = Except.ok ((3 : Nat), (7 : Nat)) :=
  extract_embed_addr 3 7 (by decide) (by decide) (by decide) (by decide)

/-- What `UsbSaitekFipLcdInt::read` returns to its caller, panics made
explicit. -/
inductive ReadOutcome where
  | ok (packet : ControlPacket) (data : Option (List Nat))
  | err (e : RusbError)
  | panicked
  deriving DecidableEq, Repr

/-- `UsbSaitekFipLcdInt::read` (saitek_fip_lcd.rs): bulk-read the 44-byte
header into a stack buffer (a short read is `Err(Other)`), decode it
(`read_from`; its failure would `expect`-panic but cannot happen at length
44), then: a zero `dataSize` returns the packet with no payload; a
`dataSize` of 512 KiB or more panics ("Too big data size"); otherwise the
payload is bulk-read into `Vec::with_capacity(dataSize)` — a vector whose
length is 0 — and the byte count must equal `dataSize` or the result is
`Err(Other)`.  The two transport interactions are the parameters: each is
the USB transfer's result, carrying the bytes placed in the caller's
buffer (so a successful transfer never yields more bytes than the buffer
holds — the theorems take that as a hypothesis where it matters). -/
def UsbSaitekFipLcdInt.read (firstBulk secondBulk : Except RusbError (List Nat)) :
    ReadOutcome :=
  match firstBulk with
  | Except.error e => ReadOutcome.err e
  | Except.ok headerBytes =>
    if headerBytes.length = 44 then
      match ControlPacket.fromBytes headerBytes with
      | none => ReadOutcome.panicked
      | some packet =>
        if packet.data_size = 0 then ReadOutcome.ok packet none
        else if 512 * 1024 ≤ packet.data_size then ReadOutcome.panicked
        else
          match secondBulk with
          | Except.error e => ReadOutcome.err e
          | Except.ok dataBytes =>
            if dataBytes.length = packet.data_size then
              ReadOutcome.ok packet (some dataBytes)
            else ReadOutcome.err RusbError.Other
    else ReadOutcome.err RusbError.Other

/-- C10: whenever the decoded header declares a nonzero `dataSize` below
the 512 KiB bound, `read` returns a transport error and never the payload:
the payload read's buffer is the zero-length vector, so a successful bulk
transfer delivers 0 bytes (the hypothesis on `secondBulk`), which can
never equal the nonzero declared size. -/
theorem read_nonzero_datasize_errs (headerBytes : List Nat)
    (secondBulk : Except RusbError (List Nat)) (packet : ControlPacket)
    (hlen : headerBytes.length = 44)
    (hparse : ControlPacket.fromBytes headerBytes = some packet)
    (hpos : 0 < packet.data_size) (hbound : packet.data_size < 512 * 1024)
    (hzero : ∀ dataBytes, secondBulk = Except.ok dataBytes → dataBytes.length = 0) :
    ∃ e, UsbSaitekFipLcdInt.read (Except.ok headerBytes) secondBulk =
      ReadOutcome.err e := by
  have h1 : ¬ packet.data_size = 0 := by omega
  have h2 : ¬ 512 * 1024 ≤ packet.data_size := by omega
  rcases secondBulk with e | dataBytes
  · exact ⟨e, by simp [UsbSaitekFipLcdInt.read, hlen, hparse, h1, h2]⟩
  · have hlen0 := hzero dataBytes rfl
    have h3 : ¬ dataBytes.length = packet.data_size := by omega
    exact ⟨RusbError.Other, by simp [UsbSaitekFipLcdInt.read, hlen, hparse, h1, h2, h3]⟩

/-- A 44-byte response header declaring `dataSize` = 1, all other fields
zero. -/
def oneByteHeader : List Nat :=
  [0, 0, 0, 0, 0, 0, 0, 0, 0, 0, 0, 1,
   0, 0, 0, 0, 0, 0, 0, 0, 0, 0, 0, 0,
   0, 0, 0, 0, 0, 0, 0, 0, 0, 0, 0, 0,
   0, 0, 0, 0, 0, 0, 0, 0]

/-- The packet `oneByteHeader` decodes to. -/
def oneBytePacket : ControlPacket :=
  { server_id := 0, page := 0, data_size := 1, header_error := 0,
    header_info := 0, request := 0, param_1 := 0, param_2 := 0,
    param_3 := 0, request_error := 0, request_info := 0 }

/-- Witness for C10: on a header declaring one payload byte and a payload
transfer that delivers the zero-length buffer, `read` returns a transport
error. -/
theorem read_nonzero_datasize_errs_witness :
    ∃ e, UsbSaitekFipLcdInt.read (Except.ok oneByteHeader) (Except.ok []) =
      ReadOutcome.err e :=
  read_nonzero_datasize_errs oneByteHeader (Except.ok []) oneBytePacket
    (by decide) (by decide) (by decide) (by decide)
    (fun dataBytes h => by cases h; rfl)

end DirectOutputLibusb
